import Mathlib

/-!
A verification development for the AI-Tutor-Orchestrator repository.

The query-classification / parameter-extraction pipeline and the
tool/model dispatch policy are embedded shallowly: queries are Lean
`String`s, the Python `dict` parameter bag is an association list in
declaration order, keyword containment is substring search over the
lowercased character list, and the two regular expressions of the
extractor are implemented directly as scanners over `List Char`.
Remote calls and the surrounding LangGraph engine are fallible and are
modelled with `Except` / an attempt oracle.
-/

namespace Tutor

/-- ASCII lowercasing of one character, as Python `str.lower` acts on the
ASCII queries handled by this code base. -/
def lowerChar (c : Char) : Char :=
  if 65 ≤ c.toNat ∧ c.toNat ≤ 90 then Char.ofNat (c.toNat + 32) else c

/-- Lowercase a whole character list (Python `query.lower()`). -/
def lowerStr (l : List Char) : List Char := l.map lowerChar

/-- The list `needle` occurs at the very start of `hay` (helper for substring search). -/
def startsWith : List Char → List Char → Bool
  | [], _ => true
  | _ :: _, [] => false
  | n :: ns, h :: hs => n == h && startsWith ns hs

/-- Python's `needle in hay` substring test. -/
def containsSub (hay needle : List Char) : Bool :=
  match hay with
  | [] => startsWith needle []
  | _ :: rest => startsWith needle hay || containsSub rest needle

/-- Any keyword of the list occurs in the (already lowercased) query text. -/
def anyKeyword (kws : List String) (ql : List Char) : Bool :=
  kws.any (fun k => containsSub ql k.data)

/-- Python `\w`: letters, digits, underscore (ASCII relevant fragment). -/
def isWordChar (c : Char) : Bool :=
  (48 ≤ c.toNat && c.toNat ≤ 57) || (65 ≤ c.toNat && c.toNat ≤ 90) ||
  (97 ≤ c.toNat && c.toNat ≤ 122) || c == '_'

/-- Python `\s`: whitespace characters. -/
def isWS (c : Char) : Bool :=
  c == ' ' || c == '\t' || c == '\n' || c == '\x0d' || c == '\x0b' || c == '\x0c'

/-- Strip whitespace from both ends (Python `str.strip()`). -/
def stripWS (l : List Char) : List Char :=
  ((l.dropWhile isWS).reverse.dropWhile isWS).reverse

/-- Strip any of the given characters from both ends (Python `str.strip(chars)`). -/
def stripChars (cs : List Char) (l : List Char) : List Char :=
  ((l.dropWhile (fun c => cs.contains c)).reverse.dropWhile (fun c => cs.contains c)).reverse

/-- Helper for `splitWS`: accumulates the current (reversed) token. -/
def splitWSAux : List Char → List Char → List (List Char)
  | [], acc => if acc.isEmpty then [] else [acc.reverse]
  | c :: rest, acc =>
    if isWS c then
      if acc.isEmpty then splitWSAux rest [] else acc.reverse :: splitWSAux rest []
    else splitWSAux rest (c :: acc)

/-- Python `str.split()`: maximal runs of non-whitespace characters. -/
def splitWS (l : List Char) : List (List Char) := splitWSAux l []

/-- Join token lists with single spaces (Python `' '.join(words)`). -/
def joinSpace : List (List Char) → List Char
  | [] => []
  | [w] => w
  | w :: rest => w ++ ' ' :: joinSpace rest

/-! ### Scanners for the two regular expressions of `parameter_extractor.py` -/

/-- Lazy capture `([\w\s]+?)(?:\.|$|\?)`: the shortest non-empty run of
word/space characters after which `.`, `?` or the end of the string follows.
`acc` holds the (reversed) characters captured so far. -/
def capFrom : List Char → List Char → Option (List Char)
  | [], acc => some acc.reverse
  | c :: rest, acc =>
    if c == '.' || c == '?' then some acc.reverse
    else if isWordChar c || isWS c then capFrom rest (c :: acc)
    else none

/-- Start the lazy capture: at least one word/space character is required. -/
def lazyCapture : List Char → Option (List Char)
  | [] => none
  | c :: rest => if isWordChar c || isWS c then capFrom rest [c] else none

/-- Try, at the current position, each literal alternative in order followed
by the lazy capture (regex backtracks to the next alternative on failure). -/
def matchLitsAt : List (List Char) → List Char → Option (List Char)
  | [], _ => none
  | lit :: rest, s =>
    if startsWith lit s then
      match lazyCapture (s.drop lit.length) with
      | some cap => some cap
      | none => matchLitsAt rest s
    else matchLitsAt rest s

/-- Python `re.search`: scan start positions left to right, return the first capture. -/
def searchPat (lits : List (List Char)) : List Char → Option (List Char)
  | [] => none
  | c :: rest =>
    match matchLitsAt lits (c :: rest) with
    | some cap => some cap
    | none => searchPat lits rest

/-- Regex `\b` after a matched word: the next character is absent or not a word char. -/
def boundaryAfterOk : List Char → Bool
  | [] => true
  | c :: _ => !isWordChar c

/-- Try each stop phrase at the current position (alternation order), requiring
a word boundary after the match; returns the remainder after the phrase.
Empty phrases are skipped so that a successful match always consumes input. -/
def tryPhraseAt : List (List Char) → List Char → Option (List Char)
  | [], _ => none
  | p :: ps, s =>
    if p.isEmpty then tryPhraseAt ps s
    else if startsWith p s && boundaryAfterOk (s.drop p.length) then some (s.drop p.length)
    else tryPhraseAt ps s

/-- Python `re.sub(r"\b(p1|p2|...)\b", "", s)`: scan left to right; at a position
preceded by a non-word character (or the start), delete the first stop phrase
that matches with a word boundary after it; otherwise copy the character.
`prevW` records whether the previous character of the original string is a
word character (all phrases start and end with word characters, so `\b`
reduces to this flag and `boundaryAfterOk`). -/
def subPhrases (phrases : List (List Char)) (s : List Char) (prevW : Bool) : List Char :=
  match s with
  | [] => []
  | c :: rest =>
    if prevW then c :: subPhrases phrases rest (isWordChar c)
    else
      match h : tryPhraseAt phrases (c :: rest) with
      | some rem => subPhrases phrases rem true
      | none => c :: subPhrases phrases rest (isWordChar c)
termination_by s.length
decreasing_by
  · simp
  · have hsw : ∀ (p s : List Char), startsWith p s = true → p.length ≤ s.length := by
      intro p
      induction p with
      | nil => intro s _; exact Nat.zero_le _
      | cons a as ihp =>
        intro s hs
        cases s with
        | nil => simp [startsWith] at hs
        | cons d ds =>
          simp only [startsWith, Bool.and_eq_true] at hs
          simpa using Nat.succ_le_succ (ihp ds hs.2)
    have hlt : ∀ (ps : List (List Char)) (s rem : List Char),
        tryPhraseAt ps s = some rem → rem.length < s.length := by
      intro ps
      induction ps with
      | nil => intro s rem hh; simp [tryPhraseAt] at hh
      | cons p ps ihq =>
        intro s rem hh
        by_cases hp : p.isEmpty
        · simp only [tryPhraseAt, hp, if_true] at hh
          exact ihq s rem hh
        · simp only [tryPhraseAt, hp, if_false] at hh
          by_cases hm : (startsWith p s && boundaryAfterOk (s.drop p.length)) = true
          · rw [if_pos hm] at hh
            have hsw2 : startsWith p s = true := by
              have hmm := hm
              simp only [Bool.and_eq_true] at hmm
              exact hmm.1
            have hle := hsw p s hsw2
            have hpos : 0 < p.length := by
              cases p with
              | nil => simp [List.isEmpty] at hp
              | cons _ _ => simp
            have hrem : s.drop p.length = rem := by injection hh
            have hlen : rem.length = s.length - p.length := by
              rw [← hrem, List.length_drop]
            omega
          · rw [if_neg hm] at hh
            exact ihq s rem hh
    exact hlt _ _ _ h
  · simp

/-! ### `agents/parameter_extractor.py` — ParameterExtractor -/

/-- A parameter value: the bag holds strings, integers and booleans. -/
inductive PVal where
  | s (v : String)
  | n (v : Nat)
  | b (v : Bool)
deriving DecidableEq, Repr

/-- Python truthiness for a parameter value. -/
def pvTruthy : PVal → Bool
  | .s v => v != ""
  | .n v => v != 0
  | .b v => v

/-- The parameter bag: a Python dict in declaration order. -/
abbrev Bag := List (String × PVal)

/-- Python `dict.get(key)` (no default): `none` when the key is absent. -/
def bagGet (bag : Bag) (k : String) : Option PVal :=
  (bag.find? (fun kv => kv.1 == k)).map (fun kv => kv.2)

/-- Python `dict.get(key, default)` used where an `int` is consumed. -/
def bagGetN (bag : Bag) (k : String) (d : Nat) : Nat :=
  match bagGet bag k with
  | some (.n v) => v
  | _ => d

/-- Python `dict.get(key, default)` used where a `str` is consumed. -/
def bagGetS (bag : Bag) (k : String) (d : String) : String :=
  match bagGet bag k with
  | some (.s v) => v
  | _ => d

/-- Python `dict.get(key, default)` used in a boolean position (the present
value is taken by truthiness, the default only when the key is absent). -/
def bagGetTruthy (bag : Bag) (k : String) (d : Bool) : Bool :=
  match bagGet bag k with
  | some v => pvTruthy v
  | none => d

/-- The user-context dict, as read by the extractor through `.get`: any of the
four consulted keys may be absent. -/
structure UserCtx where
  user_id : Option String
  grade_level : Option String
  teaching_style : Option String
  mastery_level : Option String
deriving DecidableEq, Repr

/-- Source table `self.subject_keywords` (dict declaration order is significant). -/
def subject_keywords : List (String × List String) :=
  [("mathematics", ["math", "calculus", "algebra", "geometry", "derivative", "integral", "equation"]),
   ("physics", ["physics", "force", "energy", "momentum", "quantum", "mechanics"]),
   ("chemistry", ["chemistry", "chemical", "reaction", "molecule", "atom", "bond"]),
   ("biology", ["biology", "cell", "dna", "photosynthesis", "evolution", "organism"]),
   ("computer_science", ["programming", "code", "algorithm", "python", "java", "data structure"]),
   ("history", ["history", "war", "revolution", "ancient", "civilization"]),
   ("english", ["grammar", "literature", "essay", "writing", "shakespeare"])]

/-- Source table `self.difficulty_indicators`. -/
def difficulty_indicators : List (String × List String) :=
  [("easy", ["basic", "simple", "introduction", "beginner", "struggling", "confused"]),
   ("medium", ["intermediate", "moderate", "standard", "regular"]),
   ("hard", ["advanced", "complex", "challenging", "expert", "difficult"])]

/-- Source table `self.emotional_indicators`. -/
def emotional_indicators : List (String × List String) :=
  [("confused", ["confused", "lost", "dont understand", "don\x27t get", "unclear"]),
   ("anxious", ["worried", "stressed", "nervous", "struggling", "hard time"]),
   ("frustrated", ["frustrated", "stuck", "cant figure", "can\x27t solve"]),
   ("focused", ["ready", "focused", "determined", "want to learn"]),
   ("excited", ["excited", "interested", "curious", "love", "enjoy"])]

/-- Scan a `category -> indicator-list` table in declaration order; first
category with any indicator contained in the query wins, else the default. -/
def scanTable (table : List (String × List String)) (ql : List Char) (dflt : String) : String :=
  match table with
  | [] => dflt
  | (cat, kws) :: rest =>
    if anyKeyword kws ql then cat else scanTable rest ql dflt

/-- The five topic capture patterns, in order; the last one is the
alternation `(?:on|for) `. -/
def topicPatterns : List (List String) :=
  [["about "], ["learn "], ["understand "], ["explain "], ["on ", "for "]]

/-- Stop words removed from a captured topic
(`\b(the|a|an|how|what|why|when|where)\b`). -/
def topicStops : List String := ["the", "a", "an", "how", "what", "why", "when", "where"]

/-- Try the topic patterns in order on the lowercased query: the first
pattern whose first match still has a non-empty capture after stop-word
removal and stripping yields the topic. -/
def tryTopicPatterns : List (List String) → List Char → Option (List Char)
  | [], _ => none
  | lits :: rest, ql =>
    match searchPat (lits.map String.data) ql with
    | some cap =>
      let t := stripWS (subPhrases (topicStops.map String.data) cap false)
      if t.isEmpty then tryTopicPatterns rest ql else some t
    | none => tryTopicPatterns rest ql

/-- Source `_extract_topic`: pattern capture, else the first three whitespace
tokens of the raw query, else the literal `"general topic"`. -/
def _extract_topic (query : String) : String :=
  match tryTopicPatterns topicPatterns (lowerStr query.data) with
  | some t => String.mk t
  | none =>
    let words := splitWS query.data
    if 2 < words.length then String.mk (joinSpace (words.take 3)) else "general topic"

/-- Source `_extract_subject`. -/
def _extract_subject (query : String) : String :=
  scanTable subject_keywords (lowerStr query.data) "general"

/-- Source `_infer_difficulty`. -/
def _infer_difficulty (query : String) : String :=
  scanTable difficulty_indicators (lowerStr query.data) "medium"

/-- ASCII digit test (`\d`). -/
def isDigitCh (c : Char) : Bool := 48 ≤ c.toNat && c.toNat ≤ 57

/-- The leftmost maximal run of digits (`re.findall(r"(\d+)...", ql)[0]`). -/
def firstDigitRun : List Char → Option (List Char)
  | [] => none
  | c :: rest =>
    if isDigitCh c then some (c :: rest.takeWhile isDigitCh)
    else firstDigitRun rest

/-- Python `int(...)` on a run of digits. -/
def digitsToNat (l : List Char) : Nat :=
  l.foldl (fun a c => a * 10 + (c.toNat - 48)) 0

/-- The leftmost integer in the query, if any. -/
def firstDigitNum (l : List Char) : Option Nat :=
  (firstDigitRun l).map digitsToNat

/-- Source `_extract_count`: the first run of digits, else a default keyed on the
query kind (`quiz`/`test` → 10, `flashcard` → 15, otherwise 5). -/
def _extract_count (query : String) : Nat :=
  let ql := lowerStr query.data
  match firstDigitNum ql with
  | some n => n
  | none =>
    if containsSub ql "quiz".data || containsSub ql "test".data then 10
    else if containsSub ql "flashcard".data then 15
    else 5

/-- Source `_detect_emotional_state`. -/
def _detect_emotional_state (query : String) : String :=
  scanTable emotional_indicators (lowerStr query.data) "neutral"

/-- Source `_infer_teaching_style`. -/
def _infer_teaching_style (query : String) : String :=
  let ql := lowerStr query.data
  if anyKeyword ["show", "visual", "diagram", "image", "picture"] ql then "visual"
  else if anyKeyword ["why", "reason", "think", "understand"] ql then "socratic"
  else if anyKeyword ["watch", "video", "do it myself"] ql then "flipped"
  else "direct"

/-- Source `_detect_question_type`. -/
def _detect_question_type (query : String) : String :=
  let ql := lowerStr query.data
  if containsSub ql "multiple choice".data || containsSub ql "mcq".data then "multiple_choice"
  else if containsSub ql "true".data && containsSub ql "false".data then "true_false"
  else if containsSub ql "short answer".data then "short_answer"
  else if containsSub ql "essay".data then "essay"
  else "mixed"

/-- Source `_should_include_examples`. -/
def _should_include_examples (query : String) : Bool :=
  anyKeyword ["example", "instance", "show me", "demonstrate"] (lowerStr query.data)

/-- Source `_should_include_analogies`. -/
def _should_include_analogies (query : String) : Bool :=
  anyKeyword ["like", "similar", "analogy", "compare", "understand"] (lowerStr query.data)

/-- Source `_infer_note_style`. -/
def _infer_note_style (query : String) : String :=
  let ql := lowerStr query.data
  if containsSub ql "outline".data || containsSub ql "bullet".data then "outline"
  else if containsSub ql "mind map".data || containsSub ql "diagram".data then "mind_map"
  else if containsSub ql "cornell".data then "cornell"
  else "outline"

/-- Source `_infer_depth`. -/
def _infer_depth (query : String) : String :=
  let ql := lowerStr query.data
  if anyKeyword ["brief", "quick", "summary", "overview"] ql then "brief"
  else if anyKeyword ["detailed", "depth", "thorough", "comprehensive"] ql then "detailed"
  else "moderate"

/-- Stop phrases removed by `_extract_main_concept`, in alternation order. -/
def conceptStops : List String :=
  ["what", "is", "are", "how", "does", "do", "explain", "tell me about", "help me understand"]

/-- Source `_extract_main_concept`: remove question stop-phrases from the lowercased
query, trim ` ?.,!`, default `"general concept"`. -/
def _extract_main_concept (query : String) : String :=
  let cleaned := subPhrases (conceptStops.map String.data) (lowerStr query.data) false
  let trimmed := stripChars " ?.,!".data cleaned
  if trimmed.isEmpty then "general concept" else String.mk trimmed

/-- Source `extract_parameters`: the dict literal of the source, in key order. -/
def extract_parameters (query : String) (user_context : UserCtx) : Bag :=
  [("topic", .s (_extract_topic query)),
   ("subject", .s (_extract_subject query)),
   ("difficulty", .s (_infer_difficulty query)),
   ("count", .n (_extract_count query)),
   ("num_questions", .n (_extract_count query)),
   ("teaching_style", .s (user_context.teaching_style.getD (_infer_teaching_style query))),
   ("emotional_state", .s (_detect_emotional_state query)),
   ("mastery_level", .s (user_context.mastery_level.getD "intermediate")),
   ("question_type", .s (_detect_question_type query)),
   ("include_examples", .b (_should_include_examples query)),
   ("include_analogies", .b (_should_include_analogies query)),
   ("note_taking_style", .s (_infer_note_style query)),
   ("desired_depth", .s (_infer_depth query)),
   ("concept_to_explain", .s (_extract_main_concept query)),
   ("user_id", .s (user_context.user_id.getD "guest")),
   ("grade_level", .s (user_context.grade_level.getD "general"))]

/-! ### `agents/langgraph_agent.py` — tool selection -/

/-- Python `params.get("subject") in ["computer_science", "coding", "programming"]`. -/
def subjectIsCoding : Option PVal → Bool
  | some (.s v) => v == "computer_science" || v == "coding" || v == "programming"
  | _ => false

/-- Truthiness of `dict.get(key)`: `None` (absent key) is falsy. -/
def optTruthy : Option PVal → Bool
  | none => false
  | some v => pvTruthy v

/-- The body of `_tool_selection_node`, as a function of the query and the
extracted parameter bag (the rest of the node just copies the state). -/
def toolSelect (query : String) (params : Bag) : String :=
  let q := lowerStr query.data
  if containsSub q "flashcard".data || containsSub q "card".data then "flashcard"
  else if containsSub q "note".data || optTruthy (bagGet params "note_taking_style") then "note_maker"
  else if containsSub q "explain".data || optTruthy (bagGet params "concept_to_explain") then "concept_explainer"
  else if subjectIsCoding (bagGet params "subject") then "openrouter_agent"
  else "groq_agent"

/-! ### `tools/educational_tools.py` — FlashcardGeneratorTool -/

/-- One generated flashcard. -/
structure Flashcard where
  title : String
  question : String
  answer : String
  «example» : String
deriving DecidableEq, Repr

/-- The payload of `generate_flashcards`. -/
structure FlashcardsOut where
  flashcards : List Flashcard
  topic : String
  difficulty : String
  adaptation_details : String
deriving DecidableEq, Repr

/-- Source `FlashcardGeneratorTool.generate_flashcards`: exactly `count` cards
templated from `topic` and `difficulty`. -/
def generate_flashcards (params : Bag) : FlashcardsOut :=
  let count := bagGetN params "count" 5
  let topic := bagGetS params "topic" "General"
  let difficulty := bagGetS params "difficulty" "medium"
  { flashcards :=
      (List.range count).map (fun i =>
        { title := topic ++ " - Card " ++ Nat.repr (i + 1)
          question := "Question about " ++ topic ++ " (" ++ difficulty ++ ")"
          answer := "Answer explaining " ++ topic
          «example» := if bagGetTruthy params "include_examples" true then "Practical example" else "" })
    topic := topic
    difficulty := difficulty
    adaptation_details := "Adapted for " ++ difficulty ++ " level" }

/-! ### `agents/tutor_agent.py` — TutorAgent -/

/-- Source list `self.coding_keywords`. -/
def coding_keywords : List String :=
  ["python", "javascript", "java", "c++", "html", "css", "react", "node",
   "code", "coding", "programming", "function", "class", "variable", "loop",
   "algorithm", "data structure", "array", "object", "method", "debug",
   "api", "database", "sql", "git", "framework", "library", "syntax",
   "compile", "runtime", "exception", "import", "export", "async"]

/-- Source list `self.academic_keywords`. -/
def academic_keywords : List String :=
  ["math", "mathematics", "physics", "chemistry", "biology", "history",
   "literature", "science", "equation", "formula", "theorem", "concept",
   "study", "learn", "understand", "explain", "calculate", "solve"]

/-- Python `sum(1 for keyword in kws if keyword in query_lower)`. -/
def kwScore (kws : List String) (ql : List Char) : Nat :=
  (kws.filter (fun k => containsSub ql k.data)).length

/-- The literal `{` (written by code point to keep it out of the text). -/
def lbrace : Char := Char.ofNat 123

/-- The literal `}`. -/
def rbrace : Char := Char.ofNat 125

/-- Source `has_code_patterns`: code-syntax characters on the raw query, keyword
tokens and file extensions on the lowercased query. -/
def has_code_patterns (query : String) : Bool :=
  let ql := lowerStr query.data
  query.data.any (fun c => c == lbrace || c == rbrace || c == '[' || c == ']' || c == ';') ||
  (containsSub ql "def ".data || containsSub ql "function ".data ||
   containsSub ql "class ".data || containsSub ql "import ".data ||
   containsSub ql "from ".data) ||
  (containsSub ql ".py".data || containsSub ql ".js".data ||
   containsSub ql ".java".data || containsSub ql ".cpp".data)

/-- Source `TutorAgent._classify_query`. -/
def _classify_query (query : String) : String :=
  let ql := lowerStr query.data
  if decide (2 ≤ kwScore coding_keywords ql) || has_code_patterns query then "coding"
  else if decide (1 ≤ kwScore academic_keywords ql) then "academic"
  else "general"

/-- Source `_build_coding_prompt`. -/
def _build_coding_prompt (query : String) : String :=
  "You are an expert programming tutor with deep knowledge in multiple programming languages and software development best practices.\n\nUser\x27s coding question: " ++ query ++ "\n\nPlease provide:\n1. A clear, step-by-step explanation\n2. Working code examples when applicable\n3. Best practices and common pitfalls\n4. Alternative approaches if relevant\n\nFocus on being educational and helping the user understand concepts, not just providing solutions."

/-- Source `_build_academic_prompt`. -/
def _build_academic_prompt (query : String) : String :=
  "You are an experienced academic tutor skilled in explaining complex concepts in simple, understandable terms.\n\nStudent\x27s question: " ++ query ++ "\n\nPlease provide:\n1. A clear explanation of the concept\n2. Real-world examples or analogies\n3. Step-by-step problem solving if applicable\n4. Key points to remember\n\nMake your explanation accessible and engaging for learning."

/-- Source `_build_general_prompt`. -/
def _build_general_prompt (query : String) : String :=
  "You are a helpful AI tutor dedicated to supporting student learning across various subjects.\n\nStudent\x27s question: " ++ query ++ "\n\nPlease provide a clear, helpful response that:\n1. Addresses the question directly\n2. Provides context and background information\n3. Suggests related topics for further learning\n4. Encourages critical thinking\n\nBe supportive and encouraging in your response."

/-- The normalized response record built by `TutorAgent.process` (absent dict
keys are `none`). -/
structure RespRecord where
  agent : String
  response : String
  model_used : String
  classification : Option String
  confidence : Option String
  error : Option String
deriving DecidableEq, Repr

/-- The fixed apology text of the `except` branch. -/
def apologyText : String :=
  "I apologize, but I encountered an error. Please try rephrasing your question."

/-- The handler actually awaited by `TutorAgent.process` for a query:
`call_openrouter` on the coding prompt, `call_groq` on the academic or
general prompt. The handlers are fallible (`Except`), the exception being
whatever escapes the awaited call. -/
def selectedCall (query : String)
    (codingCall groqCall : String → Except String String) : Except String String :=
  if _classify_query query == "coding" then codingCall (_build_coding_prompt query)
  else if _classify_query query == "academic" then groqCall (_build_academic_prompt query)
  else groqCall (_build_general_prompt query)

/-- Source `TutorAgent.process`: the whole body runs inside `try/except`; a handler
exception becomes the fixed apologetic record with `model_used = "error"`. -/
def tutorProcess (query : String)
    (codingCall groqCall : String → Except String String) : RespRecord :=
  match selectedCall query codingCall groqCall with
  | .ok r =>
    if _classify_query query == "coding" then
      { agent := "tutor", response := r, model_used := "openrouter_deepcoder",
        classification := some "coding", confidence := some "high", error := none }
    else if _classify_query query == "academic" then
      { agent := "tutor", response := r, model_used := "groq_mixtral",
        classification := some "academic", confidence := some "high", error := none }
    else
      { agent := "tutor", response := r, model_used := "groq_mixtral",
        classification := some "general", confidence := some "medium", error := none }
  | .error e =>
      { agent := "tutor", response := apologyText, model_used := "error",
        classification := none, confidence := none, error := some e }

/-! ### `agents/base_agent.py` — call_openrouter with model fallback -/

/-- The observable outcome of one POST attempt against one model:
HTTP 429; HTTP 404/401/403; any other raised error (`raise_for_status`,
malformed JSON, generic exception); a timeout; a well-formed response
without choices; or a content string (possibly empty). -/
inductive Attempt where
  | rate429
  | modelErr
  | raiseErr
  | timeoutErr
  | noChoices
  | content (s : String)
deriving DecidableEq, Repr

/-- Source `_get_demo_openrouter_response`: keyword-selected canned coding answer. -/
def _get_demo_openrouter_response (prompt : String) : String :=
  let pl := lowerStr prompt.data
  if containsSub pl "reverse".data && containsSub pl "string".data then
    "Here\x27s how to reverse a string in Python:\n\n```python\ndef reverse_string(s):\n    return s[::-1]\n\n# Example usage:\ntext = \"Hello World\"\nprint(reverse_string(text))  # \"dlroW olleH\"\n```\n\n**Time Complexity:** O(n)\n**Best Practice:** Use slicing for simplicity"
  else if containsSub pl "sort".data then
    "Here\x27s how to sort a list in Python:\n\n```python\ndef sort_list_builtin(lst):\n    return sorted(lst)\n\nnumbers = [5, 3, 8, 1]\nprint(sort_list_builtin(numbers))  # [1, 3, 5, 8]\n```"
  else
    "I\x27m your coding tutor! 💻\n\n**Languages:** Python, Java, JavaScript  \n**Concepts:** Data Structures, OOP, Algorithms  \nWhat programming challenge can I help you solve?"

/-- The inner retry loop `for retry in range(max_retries_per_model)` for one
model, over the list of remaining retry indices. Returns the content won by
this model (if any) and the list of retry indices actually attempted.
`att r` is the outcome of the attempt with retry index `r`:
429 retries the same model; 404/401/403 and a missing-choices body abandon
the model at once; a non-empty content returns; an empty content falls
through to the next retry; timeouts and other errors retry until the last
retry index and then abandon the model. -/
def runRetries (att : Nat → Attempt) (maxR : Nat) : List Nat → Option String × List Nat
  | [] => (none, [])
  | r :: rest =>
    match att r with
    | .rate429 =>
      let p := runRetries att maxR rest
      (p.1, r :: p.2)
    | .modelErr => (none, [r])
    | .noChoices => (none, [r])
    | .content s =>
      if s == "" then
        let p := runRetries att maxR rest
        (p.1, r :: p.2)
      else (some s, [r])
    | .timeoutErr =>
      if r == maxR - 1 then (none, [r])
      else
        let p := runRetries att maxR rest
        (p.1, r :: p.2)
    | .raiseErr =>
      if r == maxR - 1 then (none, [r])
      else
        let p := runRetries att maxR rest
        (p.1, r :: p.2)

/-- The outer loop `for model in self.openrouter_models`, over the list of
model indices. Returns the final content (the demo fallback when every model
is exhausted) together with the trace of attempts `(model index, retry index)`
actually made. -/
def runModels (oracle : Nat → Nat → Attempt) (maxR : Nat) (prompt : String) :
    List Nat → String × List (Nat × Nat)
  | [] => (_get_demo_openrouter_response prompt, [])
  | mi :: rest =>
    match runRetries (oracle mi) maxR (List.range maxR) with
    | (some s, tr) => (s, tr.map (fun r => (mi, r)))
    | (none, tr) =>
      let q := runModels oracle maxR prompt rest
      (q.1, tr.map (fun r => (mi, r)) ++ q.2)

/-- Source `BaseAgent.call_openrouter`: demo response when the key is not configured,
otherwise the model-fallback loop over the configured model list. The result
string is paired with the trace of attempts made. -/
def call_openrouter (keyOk : Bool) (models : List String)
    (oracle : Nat → Nat → Attempt) (max_retries_per_model : Nat) (prompt : String) :
    String × List (Nat × Nat) :=
  if !keyOk then (_get_demo_openrouter_response prompt, [])
  else runModels oracle max_retries_per_model prompt (List.range models.length)

/-! ### `agents/langgraph_agent.py` — LangGraphTutorAgent -/

/-- The `AgentState` dict flowing through the graph (the `model_used` key is
added by the execution node; empty before that, matching `.get(..., "")`). -/
structure AgentState where
  query : String
  user_context : UserCtx
  extracted_params : Bag
  selected_tool : String
  tool_result : Bag
  response : String
  model_used : String
deriving Repr

/-- The pydantic `UserContext()` defaults, as the dict read through `.get`:
`mastery_level` is not among its keys (the schema has
`mastery_level_summary`), so that lookup misses. -/
def defaultUserCtx : UserCtx :=
  { user_id := some "student123", grade_level := some "10",
    teaching_style := some "direct", mastery_level := none }

/-- The initial state built by `LangGraphTutorAgent.process`. -/
def initState (query : String) : AgentState :=
  { query := query, user_context := defaultUserCtx, extracted_params := [],
    selected_tool := "", tool_result := [], response := "", model_used := "" }

/-- Source `_parameter_extraction_node`. -/
def parameterExtractionNode (st : AgentState) : AgentState :=
  { st with extracted_params := extract_parameters st.query st.user_context }

/-- Source `_tool_selection_node` as a state transformer. -/
def toolSelectionNode (st : AgentState) : AgentState :=
  { st with selected_tool := toolSelect st.query st.extracted_params }

/-- The dict returned by `LangGraphTutorAgent.process`. -/
structure LGRecord where
  agent : String
  response : String
  tool_result : Bag
  selected_tool : String
  extracted_params : Bag
  model_used : String
deriving Repr

/-- Source `LangGraphTutorAgent.process`: builds the initial state, awaits
`self.graph.ainvoke` — an invocation of the external graph engine, which may
fail, modelled as an `Except`-valued function — and assembles the result dict.
There is no `try/except` in this method: a failing invocation propagates. -/
def langGraphProcess (query : String)
    (ainvoke : AgentState → Except String AgentState) : Except String LGRecord :=
  match ainvoke (initState query) with
  | .error e => .error e
  | .ok st =>
    .ok { agent := "tutor_langgraph", response := st.response,
          tool_result := st.tool_result, selected_tool := st.selected_tool,
          extracted_params := st.extracted_params, model_used := st.model_used }

/-- The oracle of the C5 scenario: model 1 answers 404, models 2 and 3 hold
valid non-empty answers. -/
def oracle5 : Nat → Nat → Attempt := fun mi _ =>
  if mi == 0 then .modelErr
  else if mi == 1 then .content "answer-from-m2"
  else .content "answer-from-m3"

/-- The structural code pattern exactly as the claim enumerates it:
brace/bracket/semicolon characters, `def`/`function`/`class`/`import`
tokens, or a source-file-extension substring. (Stated for refinement
comparison with `has_code_patterns`; the source also recognizes `from `.) -/
def claimStructuralPattern (query : String) : Bool :=
  let ql := lowerStr query.data
  query.data.any (fun c => c == lbrace || c == rbrace || c == '[' || c == ']' || c == ';') ||
  (containsSub ql "def ".data || containsSub ql "function ".data ||
   containsSub ql "class ".data || containsSub ql "import ".data) ||
  (containsSub ql ".py".data || containsSub ql ".js".data ||
   containsSub ql ".java".data || containsSub ql ".cpp".data)

/-- The domain classifier exactly as the claim words it: `coding` iff at
least 2 coding keywords match or the claimed structural pattern matches;
otherwise `academic` iff at least 1 academic keyword matches; else
`general`. (For refinement comparison with the code's `_classify_query`.) -/
def claimDomainClassify (query : String) : String :=
  let ql := lowerStr query.data
  if decide (2 ≤ kwScore coding_keywords ql) || claimStructuralPattern query then "coding"
  else if decide (1 ≤ kwScore academic_keywords ql) then "academic"
  else "general"

/-! ## Claim theorems -/

/-- A user-context record with none of the consulted keys present. -/
def ctx0 : UserCtx := ⟨none, none, none, none⟩

/-- The scenario query of C2. -/
def q2 : String := "Give me 3 easy multiple choice questions on derivatives"

/-- C1: the spec requires that, with no flashcard/note/explain cue and
extracted subject `computer_science`, tool selection picks the coding-model
handler (`openrouter_agent`). Evaluation of the code at the query
`"python algorithm"`: the subject is `computer_science` and no tool cue is
present, yet the selection is `note_maker`, because the always-non-empty
default `note_taking_style` makes the note branch fire. The subject-routing
branch of `_tool_selection_node` is dead code, contradicting its evident
intent. -/
theorem c1_subject_routing_dead :
    bagGet (extract_parameters "python algorithm" ctx0) "subject" = some (PVal.s "computer_science")
    ∧ containsSub (lowerStr "python algorithm".data) "flashcard".data = false
    ∧ containsSub (lowerStr "python algorithm".data) "card".data = false
    ∧ containsSub (lowerStr "python algorithm".data) "note".data = false
    ∧ containsSub (lowerStr "python algorithm".data) "explain".data = false
    ∧ toolSelect "python algorithm" (extract_parameters "python algorithm" ctx0) = "note_maker"
    ∧ "note_maker" ≠ "openrouter_agent" := by
  decide

/-- C2 (counterexample): for the scenario query the claim demands
`difficulty = "easy"`, but the word `easy` is not an indicator in the
`easy|medium|hard` table, so the extractor returns the default `"medium"`. -/
theorem c2_difficulty_counterexample :
    bagGet (extract_parameters q2 ctx0) "difficulty" = some (PVal.s "medium")
    ∧ ("medium" : String) ≠ "easy" := by
  decide

/-- C2 (amended): for the query
`"Give me 3 easy multiple choice questions on derivatives"` and every user
context, the extractor returns `difficulty = "medium"` (the literal word
`easy` is not in the indicator table, whose default is `"medium"`),
`count = 3`, `question_type = "multiple_choice"` and
`subject = "mathematics"`. -/
theorem c2_scenario_amended : ∀ ctx : UserCtx,
    bagGet (extract_parameters q2 ctx) "difficulty" = some (PVal.s "medium")
    ∧ bagGet (extract_parameters q2 ctx) "count" = some (PVal.n 3)
    ∧ bagGet (extract_parameters q2 ctx) "question_type" = some (PVal.s "multiple_choice")
    ∧ bagGet (extract_parameters q2 ctx) "subject" = some (PVal.s "mathematics") := by
  intro ctx
  exact ⟨rfl, rfl, rfl, rfl⟩

/-- C3: any query whose lowercased text contains `"flashcard"` or `"card"`
selects the flashcard tool, whatever the parameter bag; and the tool-intent
checks run in the fixed order flashcard → note → explain, first match wins. -/
theorem c3_tool_intent_order : ∀ (q : String) (params : Bag),
    ((containsSub (lowerStr q.data) "flashcard".data = true
      ∨ containsSub (lowerStr q.data) "card".data = true) →
      toolSelect q params = "flashcard")
    ∧ (containsSub (lowerStr q.data) "flashcard".data = false →
       containsSub (lowerStr q.data) "card".data = false →
       (containsSub (lowerStr q.data) "note".data = true
        ∨ optTruthy (bagGet params "note_taking_style") = true) →
       toolSelect q params = "note_maker")
    ∧ (containsSub (lowerStr q.data) "flashcard".data = false →
       containsSub (lowerStr q.data) "card".data = false →
       containsSub (lowerStr q.data) "note".data = false →
       optTruthy (bagGet params "note_taking_style") = false →
       (containsSub (lowerStr q.data) "explain".data = true
        ∨ optTruthy (bagGet params "concept_to_explain") = true) →
       toolSelect q params = "concept_explainer") := by
  intro q params
  refine ⟨?_, ?_, ?_⟩
  · rintro (h | h) <;> simp [toolSelect, h]
  · intro h1 h2 h3
    rcases h3 with h | h <;> simp [toolSelect, h1, h2, h]
  · intro h1 h2 h3 h4 h5
    rcases h5 with h | h <;> simp [toolSelect, h1, h2, h3, h4, h]

/-- Witness for C3 at three concrete queries, one per tool-intent branch. -/
theorem c3_tool_intent_order_witness :
    toolSelect "Make flashcards on python code" [] = "flashcard"
    ∧ toolSelect "take notes on biology" [] = "note_maker"
    ∧ toolSelect "explain gravity" [] = "concept_explainer" := by
  refine ⟨?_, ?_, ?_⟩
  · exact (c3_tool_intent_order "Make flashcards on python code" []).1 (Or.inl (by decide))
  · exact (c3_tool_intent_order "take notes on biology" []).2.1 (by decide) (by decide)
      (Or.inl (by decide))
  · exact (c3_tool_intent_order "explain gravity" []).2.2 (by decide) (by decide) (by decide)
      (by decide) (Or.inl (by decide))

/-- The note-taking style extracted for any query is a non-empty string, so
the corresponding bag entry is always truthy. -/
theorem note_style_truthy (q : String) (ctx : UserCtx) :
    optTruthy (bagGet (extract_parameters q ctx) "note_taking_style") = true := by
  have h : bagGet (extract_parameters q ctx) "note_taking_style"
      = some (PVal.s (_infer_note_style q)) := rfl
  rw [h]
  show (_infer_note_style q != "") = true
  unfold _infer_note_style
  dsimp only
  split
  · rfl
  · split
    · rfl
    · split <;> rfl

/-- C10: in the graph tool-selection step as written, every query without a
`flashcard`/`card` cue selects `note_maker` (the extracted
`note_taking_style` is always non-empty, so the note branch condition is
always true when reached), and the selection on extracted parameters is
always one of `flashcard` / `note_maker` — the concept-explainer and both
model-routing branches are unreachable. -/
theorem c10_note_branch_absorbs : ∀ (q : String) (ctx : UserCtx),
    (containsSub (lowerStr q.data) "flashcard".data = false →
     containsSub (lowerStr q.data) "card".data = false →
     toolSelect q (extract_parameters q ctx) = "note_maker")
    ∧ (toolSelect q (extract_parameters q ctx) = "flashcard"
       ∨ toolSelect q (extract_parameters q ctx) = "note_maker") := by
  intro q ctx
  have hns := note_style_truthy q ctx
  constructor
  · intro h1 h2
    simp [toolSelect, h1, h2, hns]
  · by_cases hf : containsSub (lowerStr q.data) "flashcard".data = true
    · left; simp [toolSelect, hf]
    · by_cases hc : containsSub (lowerStr q.data) "card".data = true
      · left; simp [toolSelect, hc]
      · right
        simp only [Bool.not_eq_true] at hf hc
        simp [toolSelect, hf, hc, hns]

/-- Witness for C10 at a concrete cue-free query. -/
theorem c10_note_branch_absorbs_witness :
    toolSelect "tell me about physics" (extract_parameters "tell me about physics" ctx0)
      = "note_maker" :=
  (c10_note_branch_absorbs "tell me about physics" ctx0).1 (by decide) (by decide)

/-- C4 (counterexample): the graph-based agent's `process` has no
`try/except`; a failing graph invocation propagates to the caller instead of
being converted into an apologetic record with `model_used = "error"`. -/
theorem c4_boundary_counterexample :
    langGraphProcess "hello" (fun _ => Except.error "boom") = Except.error "boom" := rfl

/-- C4 (amended): on the direct TutorAgent, any exception escaping the
selected handler is caught at the `process` boundary and converted into the
fixed apologetic record with `model_used = "error"` (and `process` itself is
total); the graph-based agent's `process` has no such boundary — a failure
of the graph invocation propagates unchanged. -/
theorem c4_error_boundary_amended :
    ∀ (q : String) (codingCall groqCall : String → Except String String) (e : String),
    (selectedCall q codingCall groqCall = Except.error e →
      tutorProcess q codingCall groqCall =
        { agent := "tutor", response := apologyText, model_used := "error",
          classification := none, confidence := none, error := some e })
    ∧ (∀ err : String, langGraphProcess q (fun _ => Except.error err) = Except.error err) := by
  intro q cc gc e
  constructor
  · intro h
    unfold tutorProcess
    rw [h]
  · intro err
    rfl

/-- Witness for C4 (amended) at a concrete query and a concrete failing
handler. -/
theorem c4_error_boundary_amended_witness :
    tutorProcess "hello" (fun _ => Except.error "boom") (fun _ => Except.error "boom") =
      { agent := "tutor", response := apologyText, model_used := "error",
        classification := none, confidence := none, error := some "boom" } :=
  (c4_error_boundary_amended "hello" (fun _ => Except.error "boom")
      (fun _ => Except.error "boom") "boom").1 (by rfl)

/-! ### Trace lemmas for the model-fallback loop -/

theorem runRetries_trace_len (att : Nat → Attempt) (maxR : Nat) :
    ∀ l : List Nat, (runRetries att maxR l).2.length ≤ l.length := by
  intro l
  induction l with
  | nil => simp [runRetries]
  | cons r rest ih =>
    unfold runRetries
    cases att r <;> dsimp only <;> (try split) <;>
      simp only [List.length_cons, List.length_nil] <;> omega

theorem runRetries_one_attempt (att : Nat → Attempt) (maxR : Nat)
    (h : ∀ r, att r = Attempt.modelErr) :
    ∀ l : List Nat, (runRetries att maxR l).2.length ≤ 1 := by
  intro l
  cases l with
  | nil => simp [runRetries]
  | cons r rest => simp [runRetries, h r]

theorem runRetries_content (att : Nat → Attempt) (maxR : Nat) :
    ∀ (l : List Nat) (s : String), (runRetries att maxR l).1 = some s →
      s ≠ "" ∧ ∃ r, att r = Attempt.content s := by
  intro l
  induction l with
  | nil => intro s h; simp [runRetries] at h
  | cons r rest ih =>
    intro s h
    unfold runRetries at h
    cases hatt : att r <;> rw [hatt] at h <;> dsimp only at h
    case rate429 => exact ih s h
    case modelErr => simp at h
    case noChoices => simp at h
    case content s' =>
      by_cases hs : (s' == "") = true
      · rw [if_pos hs] at h
        exact ih s h
      · rw [if_neg hs] at h
        dsimp only at h
        have hss : s' = s := by injection h
        subst hss
        refine ⟨by simpa using hs, r, hatt⟩
    case timeoutErr =>
      by_cases hr : (r == maxR - 1) = true
      · rw [if_pos hr] at h; simp at h
      · rw [if_neg hr] at h; exact ih s h
    case raiseErr =>
      by_cases hr : (r == maxR - 1) = true
      · rw [if_pos hr] at h; simp at h
      · rw [if_neg hr] at h; exact ih s h

theorem countP_tag_self (mi : Nat) (tr : List Nat) :
    List.countP (fun p => p.1 == mi) (tr.map (fun r => (mi, r))) = tr.length := by
  rw [List.countP_map]
  have h : ((fun p => p.1 == mi) ∘ fun r => ((mi, r) : Nat × Nat)) = fun _ => true := by
    funext r
    simp [Function.comp]
  rw [h, List.countP_true]

theorem countP_tag_ne (mi mj : Nat) (hne : mj ≠ mi) (tr : List Nat) :
    List.countP (fun p => p.1 == mi) (tr.map (fun r => (mj, r))) = 0 := by
  rw [List.countP_map]
  have h : ((fun p => p.1 == mi) ∘ fun r => ((mj, r) : Nat × Nat)) = fun _ => false := by
    funext r
    simp [Function.comp, hne]
  rw [h, List.countP_false]
  rfl

theorem runModels_count_notmem (oracle : Nat → Nat → Attempt) (maxR : Nat) (prompt : String)
    (mi : Nat) :
    ∀ mil : List Nat, mi ∉ mil →
      List.countP (fun p => p.1 == mi) (runModels oracle maxR prompt mil).2 = 0 := by
  intro mil
  induction mil with
  | nil => intro _; simp [runModels]
  | cons mj rest ih =>
    intro hmem
    have hne : mj ≠ mi := fun h => hmem (by simp [h])
    have hrest : mi ∉ rest := fun h => hmem (List.mem_cons_of_mem _ h)
    unfold runModels
    rcases hrr : runRetries (oracle mj) maxR (List.range maxR) with ⟨res, tr⟩
    cases res <;> dsimp only
    · rw [List.countP_append, countP_tag_ne mi mj hne, ih hrest]
    · rw [countP_tag_ne mi mj hne]

theorem runModels_count_le (oracle : Nat → Nat → Attempt) (maxR : Nat) (prompt : String)
    (mi : Nat) :
    ∀ mil : List Nat, List.count mi mil ≤ 1 →
      List.countP (fun p => p.1 == mi) (runModels oracle maxR prompt mil).2 ≤ maxR := by
  intro mil
  induction mil with
  | nil => intro _; simp [runModels]
  | cons mj rest ih =>
    intro hcount
    unfold runModels
    rcases hrr : runRetries (oracle mj) maxR (List.range maxR) with ⟨res, tr⟩
    have htrlen : tr.length ≤ maxR := by
      have h := runRetries_trace_len (oracle mj) maxR (List.range maxR)
      rw [hrr] at h
      simpa using h
    by_cases hne : mj = mi
    · subst hne
      have hrest : mj ∉ rest := by
        intro hmem
        have h1 : 0 < List.count mj rest := List.count_pos_iff.mpr hmem
        have h2 := List.count_cons_self mj rest
        omega
      cases res <;> dsimp only
      · rw [List.countP_append, countP_tag_self,
            runModels_count_notmem oracle maxR prompt _ rest hrest]
        omega
      · rw [countP_tag_self]
        exact htrlen
    · have hrest : List.count mi rest ≤ 1 := by
        have hb : (mj == mi) = false := by simpa using hne
        rw [List.count_cons, hb] at hcount
        simpa using hcount
      cases res <;> dsimp only
      · rw [List.countP_append, countP_tag_ne mi mj hne]
        have h := ih hrest
        omega
      · rw [countP_tag_ne mi mj hne]
        exact Nat.zero_le _

theorem runModels_count_one (oracle : Nat → Nat → Attempt) (maxR : Nat) (prompt : String)
    (mi : Nat) (herr : ∀ r, oracle mi r = Attempt.modelErr) :
    ∀ mil : List Nat, List.count mi mil ≤ 1 →
      List.countP (fun p => p.1 == mi) (runModels oracle maxR prompt mil).2 ≤ 1 := by
  intro mil
  induction mil with
  | nil => intro _; simp [runModels]
  | cons mj rest ih =>
    intro hcount
    unfold runModels
    rcases hrr : runRetries (oracle mj) maxR (List.range maxR) with ⟨res, tr⟩
    by_cases hne : mj = mi
    · subst hne
      have htrlen : tr.length ≤ 1 := by
        have h := runRetries_one_attempt (oracle mj) maxR herr (List.range maxR)
        rw [hrr] at h
        simpa using h
      have hrest : mj ∉ rest := by
        intro hmem
        have h1 : 0 < List.count mj rest := List.count_pos_iff.mpr hmem
        have h2 := List.count_cons_self mj rest
        omega
      cases res <;> dsimp only
      · rw [List.countP_append, countP_tag_self,
            runModels_count_notmem oracle maxR prompt _ rest hrest]
        omega
      · rw [countP_tag_self]
        exact htrlen
    · have hrest : List.count mi rest ≤ 1 := by
        have hb : (mj == mi) = false := by simpa using hne
        rw [List.count_cons, hb] at hcount
        simpa using hcount
      cases res <;> dsimp only
      · rw [List.countP_append, countP_tag_ne mi mj hne]
        have h := ih hrest
        omega
      · rw [countP_tag_ne mi mj hne]
        exact Nat.zero_le _


theorem runModels_result (oracle : Nat → Nat → Attempt) (maxR : Nat) (prompt : String) :
    ∀ mil : List Nat,
      (runModels oracle maxR prompt mil).1 = _get_demo_openrouter_response prompt
      ∨ ∃ mi r, oracle mi r = Attempt.content (runModels oracle maxR prompt mil).1
          ∧ (runModels oracle maxR prompt mil).1 ≠ "" := by
  intro mil
  induction mil with
  | nil => left; simp [runModels]
  | cons mj rest ih =>
    unfold runModels
    rcases hrr : runRetries (oracle mj) maxR (List.range maxR) with ⟨res, tr⟩
    cases res <;> dsimp only
    · exact ih
    case some s =>
      right
      have hc := runRetries_content (oracle mj) maxR (List.range maxR) s (by rw [hrr])
      rcases hc with ⟨hne, r, hr⟩
      exact ⟨mj, r, hr, hne⟩

/-- C5 (counterexample): in the scenario where the fallback list is
`["m1", "m2", "m3"]` and model 2 is the model that actually answers, the
response record's `model_used` is the fixed string `"openrouter_deepcoder"` —
the same value as when model 1 answers — and is not the identifier of any
list model, so `model_used` does not reflect the model that answered. -/
theorem c5_model_used_counterexample :
    (tutorProcess "python function"
        (fun p => Except.ok (call_openrouter true ["m1", "m2", "m3"] oracle5 2 p).1)
        (fun _ => Except.ok "")).model_used = "openrouter_deepcoder"
    ∧ (tutorProcess "python function"
        (fun p => Except.ok
          (call_openrouter true ["m1", "m2", "m3"] (fun _ _ => Attempt.content "answer-from-m1") 2 p).1)
        (fun _ => Except.ok "")).model_used = "openrouter_deepcoder"
    ∧ ("openrouter_deepcoder" : String) ≠ "m2"
    ∧ ¬(("openrouter_deepcoder" : String) ∈ ["m1", "m2", "m3"]) := by
  refine ⟨rfl, rfl, by decide, by decide⟩

/-- C5 (amended): a model whose every attempt answers 404/401/403 is tried at
most once (abandoned immediately, next model tried); in the concrete 3-model
scenario with model 1 answering 404 and model 2 answering validly, the call
returns model 2's content after exactly the attempt trace
`[(model 1, retry 0), (model 2, retry 0)]` — model 3 is never attempted; the
winning non-empty content is returned immediately. `call_openrouter` returns
only the content string: the coding branch of `TutorAgent.process` labels the
record with the fixed `model_used = "openrouter_deepcoder"`, whichever list
model answered. -/
theorem c5_fallback_amended : ∀ (models : List String) (oracle : Nat → Nat → Attempt)
      (maxR : Nat) (prompt : String) (mi : Nat),
    ((∀ r, oracle mi r = Attempt.modelErr) →
      List.countP (fun p => p.1 == mi) (call_openrouter true models oracle maxR prompt).2 ≤ 1)
    ∧ (call_openrouter true ["m1", "m2", "m3"] oracle5 2 "p").1 = "answer-from-m2"
    ∧ (call_openrouter true ["m1", "m2", "m3"] oracle5 2 "p").2 = [(0, 0), (1, 0)]
    ∧ (∀ r : Nat, ¬((2, r) ∈ (call_openrouter true ["m1", "m2", "m3"] oracle5 2 "p").2))
    ∧ (∀ (codingCall groqCall : String → Except String String) (r : String),
        codingCall (_build_coding_prompt "python function") = Except.ok r →
        (tutorProcess "python function" codingCall groqCall).model_used
          = "openrouter_deepcoder") := by
  intro models oracle maxR prompt mi
  refine ⟨?_, rfl, rfl, ?_, ?_⟩
  · intro herr
    unfold call_openrouter
    simp only [Bool.not_true, Bool.false_eq_true, if_false]
    exact runModels_count_one oracle maxR prompt mi herr (List.range models.length)
      (List.nodup_iff_count_le_one.mp (List.nodup_range _) mi)
  · intro r
    have h : (call_openrouter true ["m1", "m2", "m3"] oracle5 2 "p").2 = [(0, 0), (1, 0)] := rfl
    rw [h]
    simp
  · intro cc gc r h
    have hcl : _classify_query "python function" = "coding" := by decide
    unfold tutorProcess selectedCall
    rw [hcl, h]
    rfl

/-- Witness for C5 (amended): a concrete two-model list whose first model
always answers 404 is attempted exactly once in the trace. -/
theorem c5_fallback_amended_witness :
    List.countP (fun p => p.1 == 0)
      (call_openrouter true ["a", "b"] (fun _ _ => Attempt.modelErr) 3 "q").2 ≤ 1
    ∧ (tutorProcess "python function"
        (fun _ => Except.ok "demo-content") (fun _ => Except.ok "")).model_used
          = "openrouter_deepcoder" := by
  constructor
  · exact (c5_fallback_amended ["a", "b"] (fun _ _ => Attempt.modelErr) 3 "q" 0).1
      (fun _ => rfl)
  · exact (c5_fallback_amended ["a", "b"] (fun _ _ => Attempt.modelErr) 3 "q" 0).2.2.2.2
      (fun _ => Except.ok "demo-content") (fun _ => Except.ok "") "demo-content" rfl

/-- C9: for every model list, attempt oracle, retry cap and prompt, the
fallback caller makes at most `max_retries_per_model` attempts per model
(whatever the mix of rate limits, timeouts and other failures), and it always
terminates with a string — either a non-empty content answered by some model
attempt, or the keyword-selected canned demo string. -/
theorem c9_fallback_termination : ∀ (models : List String) (oracle : Nat → Nat → Attempt)
      (maxR : Nat) (prompt : String),
    (∀ mi : Nat,
      List.countP (fun p => p.1 == mi) (call_openrouter true models oracle maxR prompt).2 ≤ maxR)
    ∧ ((call_openrouter true models oracle maxR prompt).1 = _get_demo_openrouter_response prompt
       ∨ ∃ mi r, oracle mi r = Attempt.content (call_openrouter true models oracle maxR prompt).1
           ∧ (call_openrouter true models oracle maxR prompt).1 ≠ "") := by
  intro models oracle maxR prompt
  constructor
  · intro mi
    unfold call_openrouter
    simp only [Bool.not_true, Bool.false_eq_true, if_false]
    exact runModels_count_le oracle maxR prompt mi (List.range models.length)
      (List.nodup_iff_count_le_one.mp (List.nodup_range _) mi)
  · unfold call_openrouter
    simp only [Bool.not_true, Bool.false_eq_true, if_false]
    exact runModels_result oracle maxR prompt (List.range models.length)

/-- C6 (counterexample): the query `"learn from history"` matches no coding
keyword and no claimed structural pattern while matching the academic
keywords `learn` and `history`, so the claim's classifier says `academic`;
the code's regex also recognizes the token `from ` as a structural pattern
and classifies the query as `coding`. -/
theorem c6_structural_pattern_counterexample :
    _classify_query "learn from history" = "coding"
    ∧ claimDomainClassify "learn from history" = "academic"
    ∧ ("coding" : String) ≠ "academic" := by
  refine ⟨rfl, rfl, by decide⟩

/-- C6 (amended): domain classification returns `coding` iff at least 2
coding keywords match or a structural pattern matches — where the structural
pattern set additionally contains the token `from ` (and each of the
`def`/`function`/`class`/`import`/`from` tokens carries a trailing space);
otherwise `academic` iff at least 1 academic keyword matches; otherwise
`general`. The classifier never errors: its output is always one of the
closed category set. -/
theorem c6_domain_classification_amended : ∀ q : String,
    (_classify_query q = "coding" ↔
      (2 ≤ kwScore coding_keywords (lowerStr q.data) ∨ has_code_patterns q = true))
    ∧ (_classify_query q = "academic" ↔
      (¬(2 ≤ kwScore coding_keywords (lowerStr q.data) ∨ has_code_patterns q = true)
       ∧ 1 ≤ kwScore academic_keywords (lowerStr q.data)))
    ∧ (_classify_query q = "general" ↔
      (¬(2 ≤ kwScore coding_keywords (lowerStr q.data) ∨ has_code_patterns q = true)
       ∧ ¬(1 ≤ kwScore academic_keywords (lowerStr q.data))))
    ∧ (_classify_query q = "coding" ∨ _classify_query q = "academic"
       ∨ _classify_query q = "general") := by
  intro q
  by_cases hA : 2 ≤ kwScore coding_keywords (lowerStr q.data) <;>
    by_cases hB : has_code_patterns q = true <;>
      by_cases hC : 1 ≤ kwScore academic_keywords (lowerStr q.data) <;>
        simp [_classify_query, hA, hB, hC]

/-- C7: for every query (including the empty string) and every user-context
record, `extract_parameters` produces a bag whose key list is exactly the
fixed sixteen-key set, in order — every key present and populated — and the
topic is the literal `"general topic"` whenever no topic pattern matches and
the query has at most 2 whitespace-delimited tokens. -/
theorem c7_parameter_bag_invariant : ∀ (q : String) (ctx : UserCtx),
    (extract_parameters q ctx).map Prod.fst =
      ["topic", "subject", "difficulty", "count", "num_questions", "teaching_style",
       "emotional_state", "mastery_level", "question_type", "include_examples",
       "include_analogies", "note_taking_style", "desired_depth", "concept_to_explain",
       "user_id", "grade_level"]
    ∧ (tryTopicPatterns topicPatterns (lowerStr q.data) = none →
       (splitWS q.data).length ≤ 2 →
       bagGet (extract_parameters q ctx) "topic" = some (PVal.s "general topic")) := by
  intro q ctx
  constructor
  · rfl
  · intro hpat hlen
    have h : bagGet (extract_parameters q ctx) "topic" = some (PVal.s (_extract_topic q)) := rfl
    rw [h]
    unfold _extract_topic
    rw [hpat]
    dsimp only
    rw [if_neg (by omega)]

/-- Witness for C7 at the empty query and a two-token query. -/
theorem c7_parameter_bag_invariant_witness :
    bagGet (extract_parameters "" ctx0) "topic" = some (PVal.s "general topic")
    ∧ bagGet (extract_parameters "hi there" ctx0) "topic" = some (PVal.s "general topic") := by
  constructor
  · exact (c7_parameter_bag_invariant "" ctx0).2 (by decide) (by decide)
  · exact (c7_parameter_bag_invariant "hi there" ctx0).2 (by decide) (by decide)

/-- C8: whenever the query's first run of digits parses to `n` (in particular
for a numeral followed by `flashcards`), the extracted `count` is `n` and the
flashcard generator then returns exactly `n` cards; when the query has no
digits, the count defaults to 10 if `quiz` or `test` is present, 15 if
`flashcard` is present, and 5 otherwise. -/
theorem c8_count_extraction : ∀ (q : String) (ctx : UserCtx) (n : Nat),
    (firstDigitNum (lowerStr q.data) = some n →
      _extract_count q = n
      ∧ bagGet (extract_parameters q ctx) "count" = some (PVal.n n)
      ∧ (generate_flashcards (extract_parameters q ctx)).flashcards.length = n)
    ∧ (firstDigitNum (lowerStr q.data) = none →
      _extract_count q =
        (if containsSub (lowerStr q.data) "quiz".data
            || containsSub (lowerStr q.data) "test".data then 10
         else if containsSub (lowerStr q.data) "flashcard".data then 15
         else 5)) := by
  intro q ctx n
  constructor
  · intro h
    have hc : _extract_count q = n := by
      unfold _extract_count
      dsimp only
      rw [h]
    refine ⟨hc, ?_, ?_⟩
    · have hb : bagGet (extract_parameters q ctx) "count"
          = some (PVal.n (_extract_count q)) := rfl
      rw [hb, hc]
    · have hg : bagGetN (extract_parameters q ctx) "count" 5 = _extract_count q := rfl
      simp [generate_flashcards, hg, hc]
  · intro h
    unfold _extract_count
    dsimp only
    rw [h]

/-- Witness for C8 at `"Generate 7 flashcards"` (digits present) and
`"make flashcards for me"` (no digits, flashcard default). -/
theorem c8_count_extraction_witness :
    _extract_count "Generate 7 flashcards" = 7
    ∧ (generate_flashcards
        (extract_parameters "Generate 7 flashcards" ctx0)).flashcards.length = 7
    ∧ _extract_count "make flashcards for me" = 15 := by
  refine ⟨?_, ?_, ?_⟩
  · exact ((c8_count_extraction "Generate 7 flashcards" ctx0 7).1 (by decide)).1
  · exact ((c8_count_extraction "Generate 7 flashcards" ctx0 7).1 (by decide)).2.2
  · have h := (c8_count_extraction "make flashcards for me" ctx0 0).2 (by decide)
    rw [h]
    decide

end Tutor
